import Mathlib

/-!
Shallow embedding of the gesture-control core of the SolarHand repository
(class GestureController): gesture classification, temporal gesture state,
hover and dwell selection, camera command mapping, and the manual fallback
entry points.  Machine numbers are modelled as real numbers, wall-clock
times (milliseconds from Date.now) as integers passed in explicitly, and
calls into the external scene subsystem as an emitted command list.
-/

noncomputable section
open scoped Classical

namespace SolarHand

/-- One tracked hand joint: normalized coordinates, z optional in the
source (missing z is treated as 0, so it is a total field here). -/
structure Point3 where
  x : ℝ
  y : ℝ
  z : ℝ

/-- A landmark frame: the source indexes a 21-element array by the
constants below; all accesses are in range, so a total function models it. -/
def Frame : Type := Nat → Point3

/-- Hand landmark indices (the LANDMARKS table from the source). -/
def WRIST : Nat := 0
def THUMB_CMC : Nat := 1
def THUMB_MCP : Nat := 2
def THUMB_IP : Nat := 3
def THUMB_TIP : Nat := 4
def INDEX_MCP : Nat := 5
def INDEX_PIP : Nat := 6
def INDEX_DIP : Nat := 7
def INDEX_TIP : Nat := 8
def MIDDLE_MCP : Nat := 9
def MIDDLE_PIP : Nat := 10
def MIDDLE_DIP : Nat := 11
def MIDDLE_TIP : Nat := 12
def RING_MCP : Nat := 13
def RING_PIP : Nat := 14
def RING_DIP : Nat := 15
def RING_TIP : Nat := 16
def PINKY_MCP : Nat := 17
def PINKY_PIP : Nat := 18
def PINKY_DIP : Nat := 19
def PINKY_TIP : Nat := 20

/-- The five gesture labels the classifier can return. -/
inductive Gesture where
  | pinch
  | fist
  | point
  | palm
  | rotate
deriving DecidableEq, Repr

/-- A 2D vector for hand position and velocity. -/
structure Vec2 where
  x : ℝ
  y : ℝ

/-- Planet identifiers (the scene resolves hits to planet names). -/
def PlanetId : Type := String

instance : DecidableEq PlanetId := fun a b => String.decEq a b

/-- Commands issued synchronously to the external scene subsystem
(this.solarSystem in the source). -/
inductive SceneCmd where
  | adjustRotation (deltaTheta deltaPhi : ℝ)
  | adjustZoom (delta : ℝ)
  | highlightPlanet (p : Option PlanetId)
  | selectPlanet (p : PlanetId)
  | focusOnPlanet (p : PlanetId)
  | followPlanet (p : PlanetId)
  | stopFollowing
  | resetView

/-- Events emitted through the callback bus (this.emit in the source). -/
inductive Event where
  | gesture (g : Gesture)
  | planetSelected (p : PlanetId)
  | planetFollowing (p : Option PlanetId)
  | cameraReset

/-- The read-only view of the external world a frame step may consult:
the current camera zoom radius (solarSystem.cameraOrbit.radius), the
hit-test query (solarSystem.getPlanetAtScreenPosition), and the window
dimensions used to project the fingertip to screen space. -/
structure Env where
  cameraRadius : ℝ
  hitTest : ℝ → ℝ → Option PlanetId
  innerWidth : ℝ
  innerHeight : ℝ

/-- The mutable fields of GestureController, as set up in the constructor. -/
structure GCState where
  currentGesture : Option Gesture
  previousGesture : Option Gesture
  gestureStartTime : ℤ
  gestureDuration : ℤ
  handPosition : Vec2
  previousHandPosition : Vec2
  handVelocity : Vec2
  pinchDistance : ℝ
  previousPinchDistance : ℝ
  basePinchDistance : ℝ
  isPinching : Bool
  hoveredPlanet : Option PlanetId
  selectedPlanet : Option PlanetId
  followingPlanet : Option PlanetId
  hoverStartTime : ℤ
  hoverDuration : ℤ
  rotationSensitivity : ℝ
  zoomSensitivity : ℝ

/-- The constructor defaults. -/
def initState : GCState where
  currentGesture := none
  previousGesture := none
  gestureStartTime := 0
  gestureDuration := 0
  handPosition := ⟨0.5, 0.5⟩
  previousHandPosition := ⟨0.5, 0.5⟩
  handVelocity := ⟨0, 0⟩
  pinchDistance := 0
  previousPinchDistance := 0
  basePinchDistance := 0
  isPinching := false
  hoveredPlanet := none
  selectedPlanet := none
  followingPlanet := none
  hoverStartTime := 0
  hoverDuration := 0
  rotationSensitivity := 3
  zoomSensitivity := 100

/-- Gesture threshold (this.PINCH_THRESHOLD). -/
def PINCH_THRESHOLD : ℝ := 0.08

/-- Result of one operation: the updated state, the scene commands issued,
and the events emitted, both in program order. -/
structure Out where
  state : GCState
  cmds : List SceneCmd
  events : List Event

/-- distance(p1, p2): 3D Euclidean distance, missing z treated as 0. -/
def dist3 (p1 p2 : Point3) : ℝ :=
  Real.sqrt ((p1.x - p2.x) ^ 2 + (p1.y - p2.y) ^ 2 + (p1.z - p2.z) ^ 2)

/-- getPalmCenter: mean of wrist, index base and pinky base. -/
def getPalmCenter (lm : Frame) : Vec2 :=
  ⟨((lm WRIST).x + (lm INDEX_MCP).x + (lm PINKY_MCP).x) / 3,
   ((lm WRIST).y + (lm INDEX_MCP).y + (lm PINKY_MCP).y) / 3⟩

/-- isThumbExtended: tip-to-IP distance above 0.03 and its ratio to the
IP-to-MCP distance above 0.5. -/
def isThumbExtended (lm : Frame) : Prop :=
  dist3 (lm THUMB_TIP) (lm THUMB_IP) > 0.03 ∧
    dist3 (lm THUMB_TIP) (lm THUMB_IP) / dist3 (lm THUMB_IP) (lm THUMB_MCP) > 0.5

/-- The four non-thumb fingers. -/
inductive Finger where
  | index
  | middle
  | ring
  | pinky
deriving DecidableEq

/-- The fingerMap tip entry. -/
def fingerTip : Finger → Nat
  | .index => INDEX_TIP
  | .middle => MIDDLE_TIP
  | .ring => RING_TIP
  | .pinky => PINKY_TIP

/-- The fingerMap pip entry. -/
def fingerPip : Finger → Nat
  | .index => INDEX_PIP
  | .middle => MIDDLE_PIP
  | .ring => RING_PIP
  | .pinky => PINKY_PIP

/-- The fingerMap mcp entry (fetched in the source but unused by the test). -/
def fingerMcp : Finger → Nat
  | .index => INDEX_MCP
  | .middle => MIDDLE_MCP
  | .ring => RING_MCP
  | .pinky => PINKY_MCP

/-- isFingerExtended: the tip y-coordinate is below the pip y-coordinate
by more than 0.02. -/
def isFingerExtended (lm : Frame) (f : Finger) : Prop :=
  (lm (fingerTip f)).y < (lm (fingerPip f)).y - 0.02

/-- detectGesture: classify the frame and update the pinch state.  The
source mutates previousPinchDistance, pinchDistance, isPinching and (at
the moment the pinch becomes active) basePinchDistance, then returns one
label by priority: pinch, fist, point, palm, rotate. -/
def detectGesture (env : Env) (lm : Frame) (s : GCState) : Gesture × GCState :=
  let s1 : GCState :=
    { s with previousPinchDistance := s.pinchDistance
             pinchDistance := dist3 (lm THUMB_TIP) (lm INDEX_TIP) }
  if s1.pinchDistance < PINCH_THRESHOLD then
    if s1.isPinching then (.pinch, s1)
    else (.pinch, { s1 with isPinching := true, basePinchDistance := env.cameraRadius })
  else
    let s2 : GCState := { s1 with isPinching := false }
    if ¬ isThumbExtended lm ∧ ¬ isFingerExtended lm .index ∧ ¬ isFingerExtended lm .middle ∧
        ¬ isFingerExtended lm .ring ∧ ¬ isFingerExtended lm .pinky then
      (.fist, s2)
    else if isFingerExtended lm .index ∧ ¬ isFingerExtended lm .middle ∧
        ¬ isFingerExtended lm .ring ∧ ¬ isFingerExtended lm .pinky then
      (.point, s2)
    else if isThumbExtended lm ∧ isFingerExtended lm .index ∧ isFingerExtended lm .middle ∧
        isFingerExtended lm .ring ∧ isFingerExtended lm .pinky then
      (.palm, s2)
    else
      (.rotate, s2)

/-- handleRotation: map hand velocity to a camera rotation command, with
the horizontal component negated. -/
def handleRotation (s : GCState) : Out :=
  let deltaTheta := s.handVelocity.x * s.rotationSensitivity
  let deltaPhi := s.handVelocity.y * s.rotationSensitivity
  ⟨s, [.adjustRotation (-deltaTheta) deltaPhi], []⟩

/-- handlePinch: zoom by the change in thumb-index distance since the
previous frame, inverted and scaled by the zoom sensitivity. -/
def handlePinch (lm : Frame) (s : GCState) : Out :=
  let currentDistance := dist3 (lm THUMB_TIP) (lm INDEX_TIP)
  let deltaDistance := currentDistance - s.previousPinchDistance
  ⟨s, [.adjustZoom (-deltaDistance * s.zoomSensitivity)], []⟩

/-- handlePoint: project the index fingertip to screen space, hit-test it,
maintain the hover state and commit a selection after a dwell above
1500 ms on a target that is not already selected. -/
def handlePoint (env : Env) (lm : Frame) (now : ℤ) (s : GCState) : Out :=
  let indexTip := lm INDEX_TIP
  let screenX := (1 - indexTip.x) * env.innerWidth
  let screenY := indexTip.y * env.innerHeight
  match env.hitTest screenX screenY with
  | some planet =>
      let acc : GCState × List SceneCmd :=
        if s.hoveredPlanet = some planet then (s, [])
        else ({ s with hoveredPlanet := some planet, hoverStartTime := now },
              [.highlightPlanet (some planet)])
      let s2 : GCState := { acc.1 with hoverDuration := now - acc.1.hoverStartTime }
      if s2.hoverDuration > 1500 ∧ s2.selectedPlanet ≠ some planet then
        ⟨{ s2 with selectedPlanet := some planet },
         acc.2 ++ [.selectPlanet planet, .focusOnPlanet planet],
         [.planetSelected planet]⟩
      else
        ⟨s2, acc.2, []⟩
  | none =>
      if s.hoveredPlanet ≠ none then
        ⟨{ s with hoveredPlanet := none }, [.highlightPlanet none], []⟩
      else
        ⟨s, [], []⟩

/-- handleFist: while the gesture duration lies strictly inside the
(500, 700) ms window and a planet is selected, toggle follow mode. -/
def handleFist (s : GCState) : Out :=
  if s.gestureDuration > 500 ∧ s.gestureDuration < 700 then
    match s.selectedPlanet with
    | some sel =>
        if s.followingPlanet = some sel then
          ⟨{ s with followingPlanet := none }, [.stopFollowing], [.planetFollowing none]⟩
        else
          ⟨{ s with followingPlanet := some sel }, [.followPlanet sel],
           [.planetFollowing (some sel)]⟩
    | none => ⟨s, [], []⟩
  else ⟨s, [], []⟩

/-- handlePalm: while the gesture duration lies strictly inside the
(1000, 1200) ms window, reset the view and clear selection and follow. -/
def handlePalm (s : GCState) : Out :=
  if s.gestureDuration > 1000 ∧ s.gestureDuration < 1200 then
    ⟨{ s with selectedPlanet := none, followingPlanet := none },
     [.resetView], [.cameraReset, .planetFollowing none]⟩
  else ⟨s, [], []⟩

/-- handleGesture: dispatch on the classified label. -/
def handleGesture (env : Env) (lm : Frame) (now : ℤ) (g : Gesture) (s : GCState) : Out :=
  match g with
  | .rotate => handleRotation s
  | .pinch => handlePinch lm s
  | .point => handlePoint env lm now s
  | .fist => handleFist s
  | .palm => handlePalm s

/-- processHand: the per-frame entry point.  A null frame returns at once;
otherwise update hand position and velocity, classify, handle a gesture
transition (resetting the start time and emitting a gesture event),
recompute the duration, and dispatch to the per-gesture handler. -/
def processHand (env : Env) (now : ℤ) (lmOpt : Option Frame) (s : GCState) : Out :=
  match lmOpt with
  | none => ⟨s, [], []⟩
  | some lm =>
      let sa : GCState := { s with previousHandPosition := s.handPosition
                                   handPosition := getPalmCenter lm }
      let sb : GCState :=
        { sa with handVelocity := ⟨sa.handPosition.x - sa.previousHandPosition.x,
                                   sa.handPosition.y - sa.previousHandPosition.y⟩ }
      let gs := detectGesture env lm sb
      let trans : GCState × List Event :=
        if some gs.1 ≠ gs.2.currentGesture then
          ({ gs.2 with previousGesture := gs.2.currentGesture
                       currentGesture := some gs.1
                       gestureStartTime := now },
           [.gesture gs.1])
        else (gs.2, [])
      let sd : GCState := { trans.1 with gestureDuration := now - trans.1.gestureStartTime }
      let o := handleGesture env lm now gs.1 sd
      ⟨o.state, o.cmds, trans.2 ++ o.events⟩

/-- onHandLost: clear the current gesture and pinch flag, and clear any
hover highlight; selection and follow state are untouched. -/
def onHandLost (s : GCState) : Out :=
  let s1 : GCState := { s with currentGesture := none, isPinching := false }
  if s1.hoveredPlanet ≠ none then
    ⟨{ s1 with hoveredPlanet := none }, [.highlightPlanet none], []⟩
  else ⟨s1, [], []⟩

/-- update: the per-render-tick hook performs no work in the source. -/
def update (s : GCState) : Out := ⟨s, [], []⟩

/-- manualRotate: fallback direct rotation. -/
def manualRotate (deltaTheta deltaPhi : ℝ) (s : GCState) : Out :=
  ⟨s, [.adjustRotation deltaTheta deltaPhi], []⟩

/-- manualZoom: fallback direct zoom. -/
def manualZoom (delta : ℝ) (s : GCState) : Out :=
  ⟨s, [.adjustZoom delta], []⟩

/-- manualSelectPlanet: fallback direct selection by id. -/
def manualSelectPlanet (p : PlanetId) (s : GCState) : Out :=
  ⟨{ s with selectedPlanet := some p },
   [.selectPlanet p, .focusOnPlanet p], [.planetSelected p]⟩

/-- manualFollowPlanet: fallback direct follow by id; the source sets the
following field without consulting the selection. -/
def manualFollowPlanet (p : PlanetId) (s : GCState) : Out :=
  ⟨{ s with followingPlanet := some p }, [.followPlanet p], [.planetFollowing (some p)]⟩

/-- manualReset: fallback direct view reset. -/
def manualReset (s : GCState) : Out :=
  ⟨{ s with selectedPlanet := none, followingPlanet := none },
   [.resetView], [.cameraReset, .planetFollowing none]⟩

/-- The public operations of the controller, for trace-level statements. -/
inductive Op where
  | frame (lmOpt : Option Frame) (now : ℤ)
  | handLost
  | tick
  | rotateBy (deltaTheta deltaPhi : ℝ)
  | zoomBy (delta : ℝ)
  | selectId (p : PlanetId)
  | followId (p : PlanetId)
  | resetAll

/-- Dispatch one public operation. -/
def runOp (env : Env) (s : GCState) : Op → Out
  | .frame lmOpt now => processHand env now lmOpt s
  | .handLost => onHandLost s
  | .tick => update s
  | .rotateBy dt dp => manualRotate dt dp s
  | .zoomBy d => manualZoom d s
  | .selectId p => manualSelectPlanet p s
  | .followId p => manualFollowPlanet p s
  | .resetAll => manualReset s

/-- Run a list of operations, keeping a ghost list of every id the
selection field has held after some step (most recent first). -/
def runTrace (env : Env) (s : GCState) (sel : List PlanetId) :
    List Op → GCState × List PlanetId
  | [] => (s, sel)
  | op :: ops =>
      let s2 := (runOp env s op).state
      let sel2 := match s2.selectedPlanet with
        | some p => p :: sel
        | none => sel
      runTrace env s2 sel2 ops

/-- The claimed selection-before-follow invariant: the following field is
null or an id found in the ghost list of previously selected ids. -/
def followInv (s : GCState) (sel : List PlanetId) : Prop :=
  s.followingPlanet = none ∨ ∃ p ∈ sel, s.followingPlanet = some p

/-- The fist finger configuration tested by the classifier: all five
fingers not extended. -/
def fistConfig (lm : Frame) : Prop :=
  ¬ isThumbExtended lm ∧ ¬ isFingerExtended lm .index ∧ ¬ isFingerExtended lm .middle ∧
    ¬ isFingerExtended lm .ring ∧ ¬ isFingerExtended lm .pinky

/-- The point finger configuration tested by the classifier: index
extended, middle, ring and pinky not; the thumb is not consulted. -/
def pointConfig (lm : Frame) : Prop :=
  isFingerExtended lm .index ∧ ¬ isFingerExtended lm .middle ∧
    ¬ isFingerExtended lm .ring ∧ ¬ isFingerExtended lm .pinky

/-- The palm finger configuration tested by the classifier: all five
fingers extended. -/
def palmConfig (lm : Frame) : Prop :=
  isThumbExtended lm ∧ isFingerExtended lm .index ∧ isFingerExtended lm .middle ∧
    isFingerExtended lm .ring ∧ isFingerExtended lm .pinky

/-- The label detectGesture returns, viewed as a pure function of the
frame alone; the connecting lemma detectGesture_fst shows the label part
of detectGesture consults no controller state. -/
def classifyLabel (lm : Frame) : Gesture :=
  if dist3 (lm THUMB_TIP) (lm INDEX_TIP) < PINCH_THRESHOLD then .pinch
  else if fistConfig lm then .fist
  else if pointConfig lm then .point
  else if palmConfig lm then .palm
  else .rotate

/-- A fixed environment for concrete evaluations: camera radius 80, no
hit-test target, a 1920 by 1080 window. -/
def anyEnv : Env := ⟨80, fun _ _ => none, 1920, 1080⟩

/-- A concrete frame with all five fingers extended and a wide pinch:
classified as palm. -/
def palmFrame : Frame := fun i =>
  if i = 4 then ⟨0.1, 0.3, 0⟩
  else if i = 3 then ⟨0.1, 0.4, 0⟩
  else if i = 2 then ⟨0.1, 0.5, 0⟩
  else if i = 8 ∨ i = 12 ∨ i = 16 ∨ i = 20 then ⟨0.5, 0.3, 0⟩
  else ⟨0.5, 0.5, 0⟩

/-- A concrete frame with thumb tip and index tip 0.03 apart: a pinch. -/
def pinchFrame : Frame := fun i =>
  if i = 8 then ⟨0.03, 0.5, 0⟩ else ⟨0, 0.5, 0⟩

/-- A concrete frame with index and middle extended, ring and pinky not,
and a wide pinch: no named pose matches, so it classifies as rotate. -/
def rotateFrame : Frame := fun i =>
  if i = 4 then ⟨0.2, 0, 0⟩
  else if i = 8 ∨ i = 12 then ⟨0.5, 0.4, 0⟩
  else ⟨0.5, 0.5, 0⟩

/-- The controller state just before the per-gesture handler runs on a
non-null frame: hand position and velocity updated, pinch state advanced,
gesture transition recorded, duration recomputed.  The connecting lemma
processHand_some_eq proves it against processHand. -/
def midState (env : Env) (lm : Frame) (now : ℤ) (s : GCState) : GCState :=
  { s with
    previousHandPosition := s.handPosition
    handPosition := getPalmCenter lm
    handVelocity := ⟨(getPalmCenter lm).x - s.handPosition.x,
                     (getPalmCenter lm).y - s.handPosition.y⟩
    previousPinchDistance := s.pinchDistance
    pinchDistance := dist3 (lm THUMB_TIP) (lm INDEX_TIP)
    isPinching :=
      if dist3 (lm THUMB_TIP) (lm INDEX_TIP) < PINCH_THRESHOLD then true else false
    basePinchDistance :=
      if dist3 (lm THUMB_TIP) (lm INDEX_TIP) < PINCH_THRESHOLD ∧ s.isPinching = false
      then env.cameraRadius else s.basePinchDistance
    previousGesture :=
      if some (classifyLabel lm) ≠ s.currentGesture then s.currentGesture
      else s.previousGesture
    currentGesture := some (classifyLabel lm)
    gestureStartTime :=
      if some (classifyLabel lm) ≠ s.currentGesture then now else s.gestureStartTime
    gestureDuration :=
      now - (if some (classifyLabel lm) ≠ s.currentGesture then now else s.gestureStartTime) }

/-- A concrete frame with every finger closed and a wide pinch:
classified as fist. -/
def fistFrame : Frame := fun i =>
  if i = 8 then ⟨0.1, 0.5, 0⟩ else ⟨0, 0.5, 0⟩

/-- A concrete frame with only the index extended and a wide pinch:
classified as point. -/
def pointFrame : Frame := fun i =>
  if i = 8 then ⟨0.5, 0.4, 0⟩ else ⟨0.5, 0.5, 0⟩

/-- An environment whose hit-test always resolves to the same planet. -/
def stableEnv (p : PlanetId) : Env := ⟨80, fun _ _ => some p, 1920, 1080⟩

/-- Feed the same landmark frame through processHand at each given time,
collecting the emitted events in order. -/
def frameTrace (env : Env) (lm : Frame) : List ℤ → GCState → GCState × List Event
  | [], s => (s, [])
  | t :: ts, s =>
      let o := processHand env t (some lm) s
      let r := frameTrace env lm ts o.state
      (r.1, o.events ++ r.2)

/-- The planet ids carried by the planetSelected events of a list, in
order. -/
def selectedEvents : List Event → List PlanetId
  | [] => []
  | Event.planetSelected p :: es => p :: selectedEvents es
  | _ :: es => selectedEvents es

/-- Start state for the fist-hold scenario: mars already selected, not
followed. -/
def s0fist : GCState := { initState with selectedPlanet := some "mars" }

/-- Fist-hold scenario, frame at 0 ms: the fist gesture begins. -/
def fistHold1 : GCState := (processHand anyEnv 0 (some fistFrame) s0fist).state

/-- Fist-hold scenario, frame at 550 ms: inside the (500, 700) window. -/
def fistHold2 : GCState := (processHand anyEnv 550 (some fistFrame) fistHold1).state

/-- Fist-hold scenario, frame at 650 ms: still inside the window. -/
def fistHold3 : GCState := (processHand anyEnv 650 (some fistFrame) fistHold2).state

theorem detectGesture_fst (env : Env) (lm : Frame) (s : GCState) :
    (detectGesture env lm s).1 = classifyLabel lm := by
  unfold detectGesture classifyLabel fistConfig pointConfig palmConfig
  by_cases h1 : dist3 (lm THUMB_TIP) (lm INDEX_TIP) < PINCH_THRESHOLD
  · simp [h1]
    cases s.isPinching <;> simp
  · simp [h1]
    split_ifs <;> rfl

/-- Square roots of recognized squares, for evaluating dist3 on concrete
frames. -/
theorem sqrt_eval {a b : ℝ} (hb : 0 ≤ b) (hab : b ^ 2 = a) : Real.sqrt a = b := by
  subst hab
  exact Real.sqrt_sq hb

theorem palmFrame_pinchDist : dist3 (palmFrame THUMB_TIP) (palmFrame INDEX_TIP) = 0.4 := by
  have h4 : palmFrame 4 = ⟨0.1, 0.3, 0⟩ := by norm_num [palmFrame]
  have h8 : palmFrame 8 = ⟨0.5, 0.3, 0⟩ := by norm_num [palmFrame]
  unfold THUMB_TIP INDEX_TIP
  rw [h4, h8]
  unfold dist3
  apply sqrt_eval (by norm_num)
  norm_num

theorem palmFrame_palmConfig : palmConfig palmFrame := by
  have h4 : palmFrame 4 = ⟨0.1, 0.3, 0⟩ := by norm_num [palmFrame]
  have h3 : palmFrame 3 = ⟨0.1, 0.4, 0⟩ := by norm_num [palmFrame]
  have h2 : palmFrame 2 = ⟨0.1, 0.5, 0⟩ := by norm_num [palmFrame]
  have htipip : dist3 (palmFrame 4) (palmFrame 3) = 0.1 := by
    rw [h4, h3]; unfold dist3; apply sqrt_eval (by norm_num); norm_num
  have hipmcp : dist3 (palmFrame 3) (palmFrame 2) = 0.1 := by
    rw [h3, h2]; unfold dist3; apply sqrt_eval (by norm_num); norm_num
  refine ⟨⟨?_, ?_⟩, ?_, ?_, ?_, ?_⟩
  · unfold THUMB_TIP THUMB_IP
    rw [htipip]; norm_num
  · unfold THUMB_TIP THUMB_IP THUMB_MCP
    rw [htipip, hipmcp]; norm_num
  all_goals
    unfold isFingerExtended fingerTip fingerPip INDEX_TIP INDEX_PIP MIDDLE_TIP MIDDLE_PIP
      RING_TIP RING_PIP PINKY_TIP PINKY_PIP
    norm_num [palmFrame]

/-- Claim C1: detectGesture returns exactly one of the five labels pinch,
fist, point, palm, rotate, decided in fixed priority order: pinch exactly
when the thumb-tip to index-tip distance is below 0.08; otherwise fist
exactly when all five fingers are not extended; otherwise point exactly
when the index is extended and middle, ring and pinky are not (the thumb
is not consulted); otherwise palm exactly when all five are extended;
otherwise the catch-all rotate. -/
theorem claim1_detectGesture_priority (env : Env) (lm : Frame) (s : GCState) :
    ((detectGesture env lm s).1 = Gesture.pinch ∨ (detectGesture env lm s).1 = Gesture.fist ∨
      (detectGesture env lm s).1 = Gesture.point ∨ (detectGesture env lm s).1 = Gesture.palm ∨
      (detectGesture env lm s).1 = Gesture.rotate) ∧
    ((detectGesture env lm s).1 = Gesture.pinch ↔
      dist3 (lm THUMB_TIP) (lm INDEX_TIP) < PINCH_THRESHOLD) ∧
    (¬ dist3 (lm THUMB_TIP) (lm INDEX_TIP) < PINCH_THRESHOLD →
      ((detectGesture env lm s).1 = Gesture.fist ↔ fistConfig lm)) ∧
    (¬ dist3 (lm THUMB_TIP) (lm INDEX_TIP) < PINCH_THRESHOLD → ¬ fistConfig lm →
      ((detectGesture env lm s).1 = Gesture.point ↔ pointConfig lm)) ∧
    (¬ dist3 (lm THUMB_TIP) (lm INDEX_TIP) < PINCH_THRESHOLD → ¬ fistConfig lm →
      ¬ pointConfig lm →
      ((detectGesture env lm s).1 = Gesture.palm ↔ palmConfig lm)) ∧
    (¬ dist3 (lm THUMB_TIP) (lm INDEX_TIP) < PINCH_THRESHOLD → ¬ fistConfig lm →
      ¬ pointConfig lm → ¬ palmConfig lm → (detectGesture env lm s).1 = Gesture.rotate) := by
  rw [detectGesture_fst]
  unfold classifyLabel
  by_cases h1 : dist3 (lm THUMB_TIP) (lm INDEX_TIP) < PINCH_THRESHOLD <;>
    by_cases h2 : fistConfig lm <;>
      by_cases h3 : pointConfig lm <;>
        by_cases h4 : palmConfig lm <;>
          simp [h1, h2, h3, h4]

theorem claim1_detectGesture_priority_witness :
    ¬ dist3 (palmFrame THUMB_TIP) (palmFrame INDEX_TIP) < PINCH_THRESHOLD ∧
    palmConfig palmFrame ∧
    (detectGesture anyEnv palmFrame initState).1 = Gesture.palm := by
  have hpinch : ¬ dist3 (palmFrame THUMB_TIP) (palmFrame INDEX_TIP) < PINCH_THRESHOLD := by
    rw [palmFrame_pinchDist]
    unfold PINCH_THRESHOLD
    norm_num
  have hpalm : palmConfig palmFrame := palmFrame_palmConfig
  have hfist : ¬ fistConfig palmFrame := fun h => h.1 hpalm.1
  have hpoint : ¬ pointConfig palmFrame := fun h => h.2.1 hpalm.2.2.1
  exact ⟨hpinch, hpalm,
    ((claim1_detectGesture_priority anyEnv palmFrame initState).2.2.2.2.1
      hpinch hfist hpoint).mpr hpalm⟩

/-- The full state effect of detectGesture: the distance history shifts,
the active flag tracks the threshold test, the base distance is captured
from the camera radius exactly at activation, and every other field is
untouched. -/
theorem detectGesture_snd (env : Env) (lm : Frame) (s : GCState) :
    (detectGesture env lm s).2 =
      { s with
        previousPinchDistance := s.pinchDistance
        pinchDistance := dist3 (lm THUMB_TIP) (lm INDEX_TIP)
        isPinching :=
          if dist3 (lm THUMB_TIP) (lm INDEX_TIP) < PINCH_THRESHOLD then true else false
        basePinchDistance :=
          if dist3 (lm THUMB_TIP) (lm INDEX_TIP) < PINCH_THRESHOLD ∧ s.isPinching = false
          then env.cameraRadius else s.basePinchDistance } := by
  unfold detectGesture
  by_cases h1 : dist3 (lm THUMB_TIP) (lm INDEX_TIP) < PINCH_THRESHOLD <;>
    cases hp : s.isPinching <;>
      simp [h1, hp] <;> split_ifs <;> rfl

/-- Claim C9: every evaluation of the classifier shifts the current pinch
distance into the previous one, recomputes the current one, and sets the
active flag to exactly the below-threshold test, whatever label wins; the
base distance is captured from the camera zoom radius only at the moment
the pinch becomes active, and the zoom-delta computation is independent of
the base distance. -/
theorem claim9_pinch_state_update (env : Env) (lm : Frame) (s : GCState) (b : ℝ) :
    (detectGesture env lm s).2.previousPinchDistance = s.pinchDistance ∧
    (detectGesture env lm s).2.pinchDistance = dist3 (lm THUMB_TIP) (lm INDEX_TIP) ∧
    ((detectGesture env lm s).2.isPinching = true ↔
      dist3 (lm THUMB_TIP) (lm INDEX_TIP) < PINCH_THRESHOLD) ∧
    (dist3 (lm THUMB_TIP) (lm INDEX_TIP) < PINCH_THRESHOLD → s.isPinching = false →
      (detectGesture env lm s).2.basePinchDistance = env.cameraRadius) ∧
    (dist3 (lm THUMB_TIP) (lm INDEX_TIP) < PINCH_THRESHOLD → s.isPinching = true →
      (detectGesture env lm s).2.basePinchDistance = s.basePinchDistance) ∧
    (¬ dist3 (lm THUMB_TIP) (lm INDEX_TIP) < PINCH_THRESHOLD →
      (detectGesture env lm s).2.basePinchDistance = s.basePinchDistance) ∧
    (handlePinch lm { s with basePinchDistance := b }).cmds = (handlePinch lm s).cmds := by
  rw [detectGesture_snd]
  refine ⟨rfl, rfl, ?_, ?_, ?_, ?_, rfl⟩
  · by_cases h1 : dist3 (lm THUMB_TIP) (lm INDEX_TIP) < PINCH_THRESHOLD <;> simp [h1]
  · intro h1 h2; simp [h1, h2]
  · intro h1 h2; simp [h1, h2]
  · intro h1; simp [h1]

theorem pinchFrame_pinchDist : dist3 (pinchFrame THUMB_TIP) (pinchFrame INDEX_TIP) = 0.03 := by
  have h4 : pinchFrame 4 = ⟨0, 0.5, 0⟩ := by norm_num [pinchFrame]
  have h8 : pinchFrame 8 = ⟨0.03, 0.5, 0⟩ := by norm_num [pinchFrame]
  unfold THUMB_TIP INDEX_TIP
  rw [h4, h8]
  unfold dist3
  apply sqrt_eval (by norm_num)
  norm_num

theorem claim9_pinch_state_update_witness :
    dist3 (pinchFrame THUMB_TIP) (pinchFrame INDEX_TIP) < PINCH_THRESHOLD ∧
    initState.isPinching = false ∧
    (detectGesture anyEnv pinchFrame initState).2.basePinchDistance = anyEnv.cameraRadius ∧
    (detectGesture anyEnv pinchFrame initState).2.isPinching = true := by
  have hlt : dist3 (pinchFrame THUMB_TIP) (pinchFrame INDEX_TIP) < PINCH_THRESHOLD := by
    rw [pinchFrame_pinchDist]
    unfold PINCH_THRESHOLD
    norm_num
  have h := claim9_pinch_state_update anyEnv pinchFrame initState 0
  exact ⟨hlt, rfl, h.2.2.2.1 hlt rfl, h.2.2.1.mpr hlt⟩

/-- Claim C5: on a frame classified as pinch, the only scene command is a
zoom by minus the change of the thumb-index distance since the previous
frame times the zoom sensitivity; the stored pinchDistance of the pre
state is the previous frame distance, and the default sensitivity is 100. -/
theorem claim5_pinch_zoom (env : Env) (now : ℤ) (lm : Frame) (s : GCState)
    (h : dist3 (lm THUMB_TIP) (lm INDEX_TIP) < PINCH_THRESHOLD) :
    (processHand env now (some lm) s).cmds =
      [SceneCmd.adjustZoom
        (-(dist3 (lm THUMB_TIP) (lm INDEX_TIP) - s.pinchDistance) * s.zoomSensitivity)] ∧
    initState.zoomSensitivity = 100 := by
  refine ⟨?_, rfl⟩
  have hlab : ∀ st : GCState, (detectGesture env lm st).1 = Gesture.pinch := by
    intro st
    rw [detectGesture_fst]
    unfold classifyLabel
    simp [h]
  unfold processHand
  simp only [hlab, detectGesture_snd, handleGesture, handlePinch]
  split_ifs <;> simp

theorem claim5_pinch_zoom_witness :
    dist3 (pinchFrame THUMB_TIP) (pinchFrame INDEX_TIP) < PINCH_THRESHOLD ∧
    (processHand anyEnv 0 (some pinchFrame)
        { initState with pinchDistance := 0.05 }).cmds = [SceneCmd.adjustZoom 2] ∧
    (0 : ℝ) < 2 ∧ (2 : ℝ) = 0.02 * initState.zoomSensitivity := by
  have hlt : dist3 (pinchFrame THUMB_TIP) (pinchFrame INDEX_TIP) < PINCH_THRESHOLD := by
    rw [pinchFrame_pinchDist]
    unfold PINCH_THRESHOLD
    norm_num
  have h := (claim5_pinch_zoom anyEnv 0 pinchFrame { initState with pinchDistance := 0.05 } hlt).1
  refine ⟨hlt, ?_, by norm_num, by norm_num [initState]⟩
  rw [h, pinchFrame_pinchDist]
  norm_num [initState]

/-- Claim C6: on a frame classified as rotate, the only scene command is a
rotation by (minus x hand velocity times the rotation sensitivity, y hand
velocity times the rotation sensitivity), where the velocity is the palm
center of this frame minus the stored hand position; the default
sensitivity is 3. -/
theorem claim6_rotate_command (env : Env) (now : ℤ) (lm : Frame) (s : GCState)
    (h : classifyLabel lm = Gesture.rotate) :
    (processHand env now (some lm) s).cmds =
      [SceneCmd.adjustRotation
        (-(((getPalmCenter lm).x - s.handPosition.x) * s.rotationSensitivity))
        (((getPalmCenter lm).y - s.handPosition.y) * s.rotationSensitivity)] ∧
    initState.rotationSensitivity = 3 := by
  refine ⟨?_, rfl⟩
  have hlab : ∀ st : GCState, (detectGesture env lm st).1 = Gesture.rotate := by
    intro st
    rw [detectGesture_fst]
    exact h
  unfold processHand
  simp only [hlab, detectGesture_snd, handleGesture, handleRotation]
  split_ifs <;> simp

theorem rotateFrame_classify : classifyLabel rotateFrame = Gesture.rotate := by
  have hd : dist3 (rotateFrame THUMB_TIP) (rotateFrame INDEX_TIP) = 0.5 := by
    have h4 : rotateFrame 4 = ⟨0.2, 0, 0⟩ := by norm_num [rotateFrame]
    have h8 : rotateFrame 8 = ⟨0.5, 0.4, 0⟩ := by norm_num [rotateFrame]
    unfold THUMB_TIP INDEX_TIP
    rw [h4, h8]
    unfold dist3
    apply sqrt_eval (by norm_num)
    norm_num
  have hidx : isFingerExtended rotateFrame .index := by
    unfold isFingerExtended fingerTip fingerPip INDEX_TIP INDEX_PIP
    norm_num [rotateFrame]
  have hmid : isFingerExtended rotateFrame .middle := by
    unfold isFingerExtended fingerTip fingerPip MIDDLE_TIP MIDDLE_PIP
    norm_num [rotateFrame]
  have hring : ¬ isFingerExtended rotateFrame .ring := by
    unfold isFingerExtended fingerTip fingerPip RING_TIP RING_PIP
    norm_num [rotateFrame]
  have hfist : ¬ fistConfig rotateFrame := fun hc => hc.2.1 hidx
  have hpoint : ¬ pointConfig rotateFrame := fun hc => hc.2.1 hmid
  have hpalm : ¬ palmConfig rotateFrame := fun hc => hring hc.2.2.2.1
  unfold classifyLabel
  rw [hd]
  simp [hfist, hpoint, hpalm, PINCH_THRESHOLD]
  norm_num

theorem claim6_rotate_command_witness :
    classifyLabel rotateFrame = Gesture.rotate ∧
    (processHand anyEnv 0 (some rotateFrame)
        { initState with handPosition := ⟨0.45, 0.5⟩ }).cmds =
      [SceneCmd.adjustRotation (-0.15) 0] := by
  have h := (claim6_rotate_command anyEnv 0 rotateFrame
    { initState with handPosition := ⟨0.45, 0.5⟩ } rotateFrame_classify).1
  refine ⟨rotateFrame_classify, ?_⟩
  rw [h]
  have hpc : getPalmCenter rotateFrame = ⟨0.5, 0.5⟩ := by
    unfold getPalmCenter WRIST INDEX_MCP PINKY_MCP
    norm_num [rotateFrame]
  rw [hpc]
  norm_num [initState]

/-- Claim C8: processing a null landmark frame is a total no-op: the state
is returned unchanged and no scene command or event is produced. -/
theorem claim8_null_frame_noop (env : Env) (now : ℤ) (s : GCState) :
    processHand env now none s = ⟨s, [], []⟩ := rfl

/-- Claim C7: onHandLost clears the current gesture, the pinch-active flag
and any hover target (issuing a highlight-clear command exactly when a
target was hovered), and leaves selection and follow state, the hover and
gesture clocks and the pinch distances unchanged; it emits no event. -/
theorem claim7_hand_lost (s : GCState) :
    (onHandLost s).state.currentGesture = none ∧
    (onHandLost s).state.isPinching = false ∧
    (onHandLost s).state.hoveredPlanet = none ∧
    (onHandLost s).state.selectedPlanet = s.selectedPlanet ∧
    (onHandLost s).state.followingPlanet = s.followingPlanet ∧
    (onHandLost s).state.hoverStartTime = s.hoverStartTime ∧
    (onHandLost s).state.gestureStartTime = s.gestureStartTime ∧
    (onHandLost s).state.pinchDistance = s.pinchDistance ∧
    (s.hoveredPlanet ≠ none → (onHandLost s).cmds = [SceneCmd.highlightPlanet none]) ∧
    (s.hoveredPlanet = none → (onHandLost s).cmds = []) ∧
    (onHandLost s).events = [] := by
  unfold onHandLost
  by_cases h : s.hoveredPlanet = none <;> simp [h]

theorem claim7_hand_lost_witness :
    ({ initState with
        hoveredPlanet := some "earth"
        selectedPlanet := some "mars"
        followingPlanet := some "mars" } : GCState).hoveredPlanet ≠ none ∧
    (onHandLost { initState with
        hoveredPlanet := some "earth"
        selectedPlanet := some "mars"
        followingPlanet := some "mars" }).cmds =
      [SceneCmd.highlightPlanet none] ∧
    (onHandLost { initState with
        hoveredPlanet := some "earth"
        selectedPlanet := some "mars"
        followingPlanet := some "mars" }).state.selectedPlanet =
      some "mars" ∧
    (onHandLost { initState with
        hoveredPlanet := some "earth"
        selectedPlanet := some "mars"
        followingPlanet := some "mars" }).state.followingPlanet =
      some "mars" := by
  have h := claim7_hand_lost { initState with
        hoveredPlanet := some "earth"
        selectedPlanet := some "mars"
        followingPlanet := some "mars" }
  exact ⟨by simp, h.2.2.2.2.2.2.2.2.1 (by simp), h.2.2.2.1.trans rfl, h.2.2.2.2.1.trans rfl⟩

theorem processHand_some_eq (env : Env) (now : ℤ) (lm : Frame) (s : GCState) :
    processHand env now (some lm) s =
      ⟨(handleGesture env lm now (classifyLabel lm) (midState env lm now s)).state,
       (handleGesture env lm now (classifyLabel lm) (midState env lm now s)).cmds,
       (if some (classifyLabel lm) ≠ s.currentGesture
        then [Event.gesture (classifyLabel lm)] else []) ++
         (handleGesture env lm now (classifyLabel lm) (midState env lm now s)).events⟩ := by
  unfold processHand midState
  simp only [detectGesture_fst, detectGesture_snd]
  by_cases h : some (classifyLabel lm) ≠ s.currentGesture
  · simp [h]
  · rw [not_not] at h
    simp [h]

/-- Handlers other than the point handler neither move the hover target
nor issue a highlight command. -/
theorem handleGesture_not_point (env : Env) (lm : Frame) (now : ℤ) (g : Gesture)
    (s : GCState) (h : g ≠ Gesture.point) :
    (handleGesture env lm now g s).state.hoveredPlanet = s.hoveredPlanet ∧
    ∀ p, SceneCmd.highlightPlanet p ∉ (handleGesture env lm now g s).cmds := by
  cases g
  case point => exact absurd rfl h
  case rotate => simp [handleGesture, handleRotation]
  case pinch => simp [handleGesture, handlePinch]
  case palm =>
    simp only [handleGesture, handlePalm]
    split_ifs <;> simp
  case fist =>
    simp only [handleGesture, handleFist]
    split_ifs with hw
    · cases hsel : s.selectedPlanet with
      | none => simp
      | some v => by_cases hf : s.followingPlanet = some v <;> simp [hf]
    · simp

/-- The point handler clears the hover target when the hit-test misses. -/
theorem handlePoint_nohit (env : Env) (lm : Frame) (now : ℤ) (s : GCState)
    (hh : env.hitTest ((1 - (lm INDEX_TIP).x) * env.innerWidth)
      ((lm INDEX_TIP).y * env.innerHeight) = none) :
    (handlePoint env lm now s).state.hoveredPlanet = none := by
  simp only [handlePoint, hh]
  split_ifs with h
  · rfl
  · simpa using h

/-- Claim C10: a processed frame whose classified gesture is not point
leaves the hover target unchanged and issues no highlight command; the
hover target is cleared by a point frame whose hit-test misses, and by
onHandLost. -/
theorem claim10_hover_persistence (env : Env) (now : ℤ) (lm : Frame) (s : GCState) :
    (classifyLabel lm ≠ Gesture.point →
      (processHand env now (some lm) s).state.hoveredPlanet = s.hoveredPlanet ∧
      ∀ p, SceneCmd.highlightPlanet p ∉ (processHand env now (some lm) s).cmds) ∧
    (classifyLabel lm = Gesture.point →
      env.hitTest ((1 - (lm INDEX_TIP).x) * env.innerWidth)
          ((lm INDEX_TIP).y * env.innerHeight) = none →
      (processHand env now (some lm) s).state.hoveredPlanet = none) ∧
    (onHandLost s).state.hoveredPlanet = none := by
  rw [processHand_some_eq]
  refine ⟨?_, ?_, ?_⟩
  · intro h
    have hg := handleGesture_not_point env lm now (classifyLabel lm) (midState env lm now s) h
    exact ⟨hg.1, hg.2⟩
  · intro h hh
    rw [h]
    exact handlePoint_nohit env lm now (midState env lm now s) hh
  · by_cases h : s.hoveredPlanet = none <;> simp [onHandLost, h]

theorem fistFrame_classify : classifyLabel fistFrame = Gesture.fist := by
  have h4 : fistFrame 4 = ⟨0, 0.5, 0⟩ := by norm_num [fistFrame]
  have h3 : fistFrame 3 = ⟨0, 0.5, 0⟩ := by norm_num [fistFrame]
  have h8 : fistFrame 8 = ⟨0.1, 0.5, 0⟩ := by norm_num [fistFrame]
  have hd : dist3 (fistFrame THUMB_TIP) (fistFrame INDEX_TIP) = 0.1 := by
    unfold THUMB_TIP INDEX_TIP
    rw [h4, h8]
    unfold dist3
    apply sqrt_eval (by norm_num)
    norm_num
  have htipip : dist3 (fistFrame 4) (fistFrame 3) = 0 := by
    rw [h4, h3]
    unfold dist3
    apply sqrt_eval (by norm_num)
    norm_num
  have hthumb : ¬ isThumbExtended fistFrame := by
    unfold isThumbExtended THUMB_TIP THUMB_IP
    rw [htipip]
    norm_num
  have hfc : fistConfig fistFrame := by
    refine ⟨hthumb, ?_, ?_, ?_, ?_⟩ <;>
      · unfold isFingerExtended fingerTip fingerPip INDEX_TIP INDEX_PIP MIDDLE_TIP MIDDLE_PIP
          RING_TIP RING_PIP PINKY_TIP PINKY_PIP
        norm_num [fistFrame]
  unfold classifyLabel
  rw [hd]
  have hnp : ¬ ((0.1 : ℝ) < PINCH_THRESHOLD) := by
    unfold PINCH_THRESHOLD
    norm_num
  simp [hnp, hfc]

theorem claim10_hover_persistence_witness :
    classifyLabel fistFrame ≠ Gesture.point ∧
    (processHand anyEnv 0 (some fistFrame)
        { initState with hoveredPlanet := some "earth" }).state.hoveredPlanet =
      some "earth" := by
  have hne : classifyLabel fistFrame ≠ Gesture.point := by
    rw [fistFrame_classify]
    simp
  have h := (claim10_hover_persistence anyEnv 0 fistFrame
    { initState with hoveredPlanet := some "earth" }).1 hne
  exact ⟨hne, h.1⟩

theorem midState_hoveredPlanet (env : Env) (lm : Frame) (now : ℤ) (s : GCState) :
    (midState env lm now s).hoveredPlanet = s.hoveredPlanet := rfl

theorem midState_hoverStartTime (env : Env) (lm : Frame) (now : ℤ) (s : GCState) :
    (midState env lm now s).hoverStartTime = s.hoverStartTime := rfl

theorem midState_currentGesture (env : Env) (lm : Frame) (now : ℤ) (s : GCState) :
    (midState env lm now s).currentGesture = some (classifyLabel lm) := rfl

theorem midState_selectedPlanet (env : Env) (lm : Frame) (now : ℤ) (s : GCState) :
    (midState env lm now s).selectedPlanet = s.selectedPlanet := rfl

theorem midState_followingPlanet (env : Env) (lm : Frame) (now : ℤ) (s : GCState) :
    (midState env lm now s).followingPlanet = s.followingPlanet := rfl

theorem midState_gestureStartTime (env : Env) (lm : Frame) (now : ℤ) (s : GCState) :
    (midState env lm now s).gestureStartTime =
      if some (classifyLabel lm) ≠ s.currentGesture then now else s.gestureStartTime := rfl

theorem midState_gestureDuration (env : Env) (lm : Frame) (now : ℤ) (s : GCState) :
    (midState env lm now s).gestureDuration =
      now - (if some (classifyLabel lm) ≠ s.currentGesture then now else s.gestureStartTime) :=
  rfl

/-- On a fist-classified frame, the frame step is handleFist applied to
the mid state. -/
theorem processHand_fist_state (env : Env) (now : ℤ) (lm : Frame) (s : GCState)
    (h : classifyLabel lm = Gesture.fist) :
    (processHand env now (some lm) s).state = (handleFist (midState env lm now s)).state := by
  rw [processHand_some_eq, h]
  rfl

/-- The state part of handleFist, in closed form. -/
theorem handleFist_state (s : GCState) :
    (handleFist s).state =
      if s.gestureDuration > 500 ∧ s.gestureDuration < 700 then
        match s.selectedPlanet with
        | some sel =>
            if s.followingPlanet = some sel then { s with followingPlanet := none }
            else { s with followingPlanet := some sel }
        | none => s
      else s := by
  unfold handleFist
  split_ifs with h
  · cases hsel : s.selectedPlanet with
    | none => rfl
    | some v => by_cases hf : s.followingPlanet = some v <;> simp [hf]
  · rfl

theorem fistHold1_eq : fistHold1 = midState anyEnv fistFrame 0 s0fist := by
  unfold fistHold1
  rw [processHand_fist_state anyEnv 0 fistFrame s0fist fistFrame_classify, handleFist_state]
  rw [if_neg]
  intro hcon
  rw [midState_gestureDuration] at hcon
  simp [fistFrame_classify, s0fist, initState] at hcon

theorem fistHold1_fields :
    fistHold1.currentGesture = some Gesture.fist ∧
    fistHold1.gestureStartTime = 0 ∧
    fistHold1.selectedPlanet = some "mars" ∧
    fistHold1.followingPlanet = none := by
  rw [fistHold1_eq]
  refine ⟨?_, ?_, rfl, rfl⟩
  · rw [midState_currentGesture, fistFrame_classify]
  · rw [midState_gestureStartTime]
    simp [fistFrame_classify, s0fist, initState]

/-- The state part of handleFist when a planet is selected and the
duration lies inside the window. -/
theorem handleFist_state_some (s : GCState) (v : PlanetId) (hsel : s.selectedPlanet = some v)
    (hwin : s.gestureDuration > 500 ∧ s.gestureDuration < 700) :
    (handleFist s).state =
      (if s.followingPlanet = some v then { s with followingPlanet := none }
       else { s with followingPlanet := some v }) := by
  unfold handleFist
  rw [if_pos hwin, hsel]
  by_cases hf : s.followingPlanet = some v <;> simp [hf]

theorem fistHold2_eq :
    fistHold2 = { midState anyEnv fistFrame 550 fistHold1 with followingPlanet := some "mars" } := by
  unfold fistHold2
  have hsel : (midState anyEnv fistFrame 550 fistHold1).selectedPlanet = some "mars" := by
    rw [midState_selectedPlanet, fistHold1_fields.2.2.1]
  have hdur : (midState anyEnv fistFrame 550 fistHold1).gestureDuration = 550 := by
    rw [midState_gestureDuration]
    rw [if_neg]
    · rw [fistHold1_fields.2.1]
      norm_num
    · rw [fistHold1_fields.1, fistFrame_classify]
      simp
  have hfol : (midState anyEnv fistFrame 550 fistHold1).followingPlanet = none := by
    rw [midState_followingPlanet, fistHold1_fields.2.2.2]
  rw [processHand_fist_state anyEnv 550 fistFrame fistHold1 fistFrame_classify,
    handleFist_state_some _ "mars" hsel ⟨by rw [hdur]; norm_num, by rw [hdur]; norm_num⟩]
  rw [if_neg]
  rw [hfol]
  simp

theorem fistHold2_fields :
    fistHold2.currentGesture = some Gesture.fist ∧
    fistHold2.gestureStartTime = 0 ∧
    fistHold2.selectedPlanet = some "mars" ∧
    fistHold2.followingPlanet = some "mars" := by
  rw [fistHold2_eq]
  refine ⟨?_, ?_, ?_, rfl⟩
  · show (midState anyEnv fistFrame 550 fistHold1).currentGesture = some Gesture.fist
    rw [midState_currentGesture, fistFrame_classify]
  · show (midState anyEnv fistFrame 550 fistHold1).gestureStartTime = 0
    rw [midState_gestureStartTime]
    rw [if_neg]
    · exact fistHold1_fields.2.1
    · rw [fistHold1_fields.1, fistFrame_classify]
      simp
  · show (midState anyEnv fistFrame 550 fistHold1).selectedPlanet = some "mars"
    rw [midState_selectedPlanet, fistHold1_fields.2.2.1]

/-- Claim C2: the follow toggle is window-gated, not edge-triggered.  In a
single fist hold over a selected planet, a frame at 550 ms turns following
on, and a second frame of the same hold at 650 ms (same gesture instance,
same start time, both durations inside (500, 700)) toggles it off again —
the hold ends with following null, not the single-toggle result. -/
theorem claim2_fist_double_toggle :
    fistHold2.followingPlanet = some "mars" ∧
    fistHold2.currentGesture = some Gesture.fist ∧
    fistHold3.followingPlanet = none ∧
    fistHold3.currentGesture = some Gesture.fist ∧
    fistHold3.gestureStartTime = 0 := by
  have e3 : fistHold3 = { midState anyEnv fistFrame 650 fistHold2 with followingPlanet := none } := by
    unfold fistHold3
    have hne : ¬ some (classifyLabel fistFrame) ≠ fistHold2.currentGesture := by
      rw [fistHold2_fields.1, fistFrame_classify]
      simp
    have hsel : (midState anyEnv fistFrame 650 fistHold2).selectedPlanet = some "mars" := by
      rw [midState_selectedPlanet, fistHold2_fields.2.2.1]
    have hdur : (midState anyEnv fistFrame 650 fistHold2).gestureDuration = 650 := by
      rw [midState_gestureDuration, if_neg hne, fistHold2_fields.2.1]
      norm_num
    have hfol : (midState anyEnv fistFrame 650 fistHold2).followingPlanet = some "mars" := by
      rw [midState_followingPlanet, fistHold2_fields.2.2.2]
    rw [processHand_fist_state anyEnv 650 fistFrame fistHold2 fistFrame_classify,
      handleFist_state_some _ "mars" hsel ⟨by rw [hdur]; norm_num, by rw [hdur]; norm_num⟩]
    rw [if_pos hfol]
  refine ⟨fistHold2_fields.2.2.2, fistHold2_fields.1, ?_, ?_, ?_⟩
  · rw [e3]
  · rw [e3]
    show (midState anyEnv fistFrame 650 fistHold2).currentGesture = some Gesture.fist
    rw [midState_currentGesture, fistFrame_classify]
  · rw [e3]
    show (midState anyEnv fistFrame 650 fistHold2).gestureStartTime = 0
    rw [midState_gestureStartTime, if_neg]
    · exact fistHold2_fields.2.1
    · rw [fistHold2_fields.1, fistFrame_classify]
      simp

theorem selectedEvents_append (a b : List Event) :
    selectedEvents (a ++ b) = selectedEvents a ++ selectedEvents b := by
  induction a with
  | nil => rfl
  | cons e es ih => cases e <;> simp [selectedEvents, ih]

/-- On a point-classified frame, the frame step is handlePoint applied to
the mid state, and the frame contributes no planetSelected events beyond
those of handlePoint. -/
theorem processHand_point_out (env : Env) (now : ℤ) (lm : Frame) (s : GCState)
    (h : classifyLabel lm = Gesture.point) :
    (processHand env now (some lm) s).state =
      (handlePoint env lm now (midState env lm now s)).state ∧
    selectedEvents (processHand env now (some lm) s).events =
      selectedEvents (handlePoint env lm now (midState env lm now s)).events := by
  rw [processHand_some_eq, h]
  refine ⟨rfl, ?_⟩
  show selectedEvents
      ((if some Gesture.point ≠ s.currentGesture then [Event.gesture Gesture.point] else []) ++
        (handlePoint env lm now (midState env lm now s)).events) = _
  rw [selectedEvents_append]
  split_ifs <;> simp [selectedEvents]

/-- handlePoint under a stable hit on the already-hovered target, inside
the dwell window on an unselected target: commit the selection. -/
theorem handlePoint_stable_fire (env : Env) (lm : Frame) (now : ℤ) (s : GCState)
    (p : PlanetId) (hstable : ∀ x y, env.hitTest x y = some p)
    (hhov : s.hoveredPlanet = some p)
    (hc : now - s.hoverStartTime > 1500 ∧ s.selectedPlanet ≠ some p) :
    handlePoint env lm now s =
      ⟨{ s with hoverDuration := now - s.hoverStartTime, selectedPlanet := some p },
       [.selectPlanet p, .focusOnPlanet p], [.planetSelected p]⟩ := by
  simp only [handlePoint, hstable]
  rw [if_pos hhov]
  split_ifs with h2
  · simp
  · exact absurd hc h2

/-- handlePoint under a stable hit on the already-hovered target, outside
the dwell window or on the already-selected target: only the duration
advances. -/
theorem handlePoint_stable_skip (env : Env) (lm : Frame) (now : ℤ) (s : GCState)
    (p : PlanetId) (hstable : ∀ x y, env.hitTest x y = some p)
    (hhov : s.hoveredPlanet = some p)
    (hc : ¬ (now - s.hoverStartTime > 1500 ∧ s.selectedPlanet ≠ some p)) :
    handlePoint env lm now s = ⟨{ s with hoverDuration := now - s.hoverStartTime }, [], []⟩ := by
  simp only [handlePoint, hstable]
  rw [if_pos hhov]
  split_ifs with h2
  · exact absurd h2 hc
  · simp

/-- handlePoint under a stable hit when the target was not hovered yet:
acquire the hover, highlight it, and start the dwell clock. -/
theorem handlePoint_stable_new (env : Env) (lm : Frame) (now : ℤ) (s : GCState)
    (p : PlanetId) (hstable : ∀ x y, env.hitTest x y = some p)
    (hhov : s.hoveredPlanet ≠ some p) :
    handlePoint env lm now s =
      ⟨{ s with hoveredPlanet := some p, hoverStartTime := now, hoverDuration := 0 },
       [.highlightPlanet (some p)], []⟩ := by
  simp only [handlePoint, hstable]
  rw [if_neg hhov]
  split_ifs with h2
  · have h3 := h2.1
    simp at h3
  · simp

/-- Once the stable target is the selected one, further point frames on it
emit no planetSelected event. -/
theorem frameTrace_point_selected (env : Env) (lm : Frame) (p : PlanetId)
    (hstable : ∀ x y, env.hitTest x y = some p)
    (hlm : classifyLabel lm = Gesture.point) :
    ∀ (ts : List ℤ) (s : GCState), s.hoveredPlanet = some p → s.selectedPlanet = some p →
      selectedEvents (frameTrace env lm ts s).2 = [] := by
  intro ts
  induction ts with
  | nil => intro s _ _; rfl
  | cons t ts ih =>
      intro s hhov hsel
      have hout := processHand_point_out env t lm s hlm
      have hskip := handlePoint_stable_skip env lm t (midState env lm t s) p hstable hhov
        (fun hcon => hcon.2 hsel)
      simp only [frameTrace, selectedEvents_append]
      rw [hout.2, hout.1, hskip]
      simp only [selectedEvents, List.nil_append]
      exact ih _ hhov hsel

/-- While the stable target is hovered with dwell clock at t1 and not yet
selected, the whole remaining trace emits the single planetSelected event
exactly when some frame time exceeds t1 by more than 1500 ms. -/
theorem frameTrace_point_hovering (env : Env) (lm : Frame) (p : PlanetId) (t1 : ℤ)
    (hstable : ∀ x y, env.hitTest x y = some p)
    (hlm : classifyLabel lm = Gesture.point) :
    ∀ (ts : List ℤ) (s : GCState), s.hoveredPlanet = some p → s.hoverStartTime = t1 →
      s.selectedPlanet ≠ some p →
      selectedEvents (frameTrace env lm ts s).2 =
        (if ∃ t ∈ ts, t - t1 > 1500 then [p] else []) := by
  intro ts
  induction ts with
  | nil =>
      intro s _ _ _
      simp [frameTrace, selectedEvents]
  | cons t ts ih =>
      intro s hhov hstart hsel
      have hout := processHand_point_out env t lm s hlm
      by_cases hw : t - t1 > 1500
      · have hfire := handlePoint_stable_fire env lm t (midState env lm t s) p hstable hhov
          ⟨by rw [midState_hoverStartTime, hstart]; exact hw, hsel⟩
        have htail := frameTrace_point_selected env lm p hstable hlm ts
          { midState env lm t s with
              hoverDuration := t - (midState env lm t s).hoverStartTime
              selectedPlanet := some p } hhov rfl
        simp only [frameTrace, selectedEvents_append]
        rw [hout.2, hout.1, hfire]
        rw [if_pos ⟨t, by simp, hw⟩]
        simp only [selectedEvents]
        rw [htail]
        simp
      · have hskip := handlePoint_stable_skip env lm t (midState env lm t s) p hstable hhov
          (fun hcon => hw (by rw [midState_hoverStartTime, hstart] at hcon; exact hcon.1))
        have htail := ih { midState env lm t s with
            hoverDuration := t - (midState env lm t s).hoverStartTime } hhov hstart hsel
        simp only [frameTrace, selectedEvents_append]
        rw [hout.2, hout.1, hskip]
        simp only [selectedEvents, List.nil_append]
        rw [htail]
        have hiff : (∃ t2 ∈ t :: ts, t2 - t1 > 1500) ↔ (∃ t2 ∈ ts, t2 - t1 > 1500) := by
          constructor
          · rintro ⟨t2, ht2, hgt⟩
            rcases List.mem_cons.mp ht2 with h | hmem
            · subst h; exact absurd hgt hw
            · exact ⟨t2, hmem, hgt⟩
          · rintro ⟨t2, hmem, hgt⟩
            exact ⟨t2, List.mem_cons_of_mem _ hmem, hgt⟩
        rw [if_congr hiff rfl rfl]

/-- Claim C3: with the gesture fixed at point and the hit-test stably
resolving to one planet that is not yet selected, a frame sequence
beginning the hover at time t1 emits no planetSelected event while every
dwell duration stays at or below 1500 ms, and exactly one planetSelected
event with that id (never re-fired) once some frame exceeds the 1500 ms
dwell. -/
theorem claim3_dwell_selection (env : Env) (p : PlanetId) (lm : Frame) (s : GCState)
    (hstable : ∀ x y, env.hitTest x y = some p)
    (hlm : classifyLabel lm = Gesture.point)
    (hhov : s.hoveredPlanet ≠ some p)
    (hsel : s.selectedPlanet ≠ some p)
    (t1 : ℤ) (ts : List ℤ) :
    selectedEvents (frameTrace env lm (t1 :: ts) s).2 =
      (if ∃ t ∈ ts, t - t1 > 1500 then [p] else []) := by
  have hout := processHand_point_out env t1 lm s hlm
  have hnew := handlePoint_stable_new env lm t1 (midState env lm t1 s) p hstable hhov
  have htail := frameTrace_point_hovering env lm p t1 hstable hlm ts
    { midState env lm t1 s with
        hoveredPlanet := some p
        hoverStartTime := t1
        hoverDuration := 0 } rfl rfl hsel
  simp only [frameTrace, selectedEvents_append]
  rw [hout.2, hout.1, hnew]
  simp only [selectedEvents, List.nil_append]
  rw [htail]

theorem pointFrame_classify : classifyLabel pointFrame = Gesture.point := by
  have h4 : pointFrame 4 = ⟨0.5, 0.5, 0⟩ := by norm_num [pointFrame]
  have h8 : pointFrame 8 = ⟨0.5, 0.4, 0⟩ := by norm_num [pointFrame]
  have hd : dist3 (pointFrame THUMB_TIP) (pointFrame INDEX_TIP) = 0.1 := by
    unfold THUMB_TIP INDEX_TIP
    rw [h4, h8]
    unfold dist3
    apply sqrt_eval (by norm_num)
    norm_num
  have hidx : isFingerExtended pointFrame .index := by
    unfold isFingerExtended fingerTip fingerPip INDEX_TIP INDEX_PIP
    norm_num [pointFrame]
  have hpc : pointConfig pointFrame := by
    refine ⟨hidx, ?_, ?_, ?_⟩ <;>
      · unfold isFingerExtended fingerTip fingerPip MIDDLE_TIP MIDDLE_PIP RING_TIP RING_PIP
          PINKY_TIP PINKY_PIP
        norm_num [pointFrame]
  have hfist : ¬ fistConfig pointFrame := fun hc => hc.2.1 hidx
  unfold classifyLabel
  rw [hd]
  have hnp : ¬ ((0.1 : ℝ) < PINCH_THRESHOLD) := by
    unfold PINCH_THRESHOLD
    norm_num
  simp [hnp, hfist, hpc]

theorem claim3_dwell_selection_witness :
    (∀ x y, (stableEnv "earth").hitTest x y = some "earth") ∧
    classifyLabel pointFrame = Gesture.point ∧
    initState.hoveredPlanet ≠ some "earth" ∧
    selectedEvents (frameTrace (stableEnv "earth") pointFrame [0, 600, 2200] initState).2 =
      ["earth"] := by
  refine ⟨fun x y => rfl, pointFrame_classify, by simp [initState], ?_⟩
  rw [claim3_dwell_selection (stableEnv "earth") "earth" pointFrame initState
    (fun x y => rfl) pointFrame_classify (by simp [initState]) (by simp [initState])
    0 [600, 2200]]
  rw [if_pos]
  exact ⟨2200, by simp, by norm_num⟩

/-- Every handler leaves the following field null, unchanged, or equal to
the selection it commits. -/
theorem handleGesture_follow_cases (env : Env) (lm : Frame) (now : ℤ) (g : Gesture)
    (s : GCState) :
    (handleGesture env lm now g s).state.followingPlanet = none ∨
    (handleGesture env lm now g s).state.followingPlanet = s.followingPlanet ∨
    (handleGesture env lm now g s).state.followingPlanet =
      (handleGesture env lm now g s).state.selectedPlanet := by
  cases g
  case rotate => right; left; rfl
  case pinch => right; left; rfl
  case point =>
    simp only [handleGesture, handlePoint]
    rcases hres : env.hitTest ((1 - (lm INDEX_TIP).x) * env.innerWidth)
        ((lm INDEX_TIP).y * env.innerHeight) with _ | planet <;>
      simp [hres] <;> split_ifs <;> simp
  case fist =>
    simp only [handleGesture, handleFist]
    split_ifs with hw
    · cases hsel : s.selectedPlanet with
      | none => simp
      | some v => by_cases hf : s.followingPlanet = some v <;> simp [hf]
    · simp
  case palm =>
    simp only [handleGesture, handlePalm]
    split_ifs <;> simp

theorem processHand_follow_cases (env : Env) (now : ℤ) (lmOpt : Option Frame) (s : GCState) :
    (processHand env now lmOpt s).state.followingPlanet = none ∨
    (processHand env now lmOpt s).state.followingPlanet = s.followingPlanet ∨
    (processHand env now lmOpt s).state.followingPlanet =
      (processHand env now lmOpt s).state.selectedPlanet := by
  cases lmOpt with
  | none => right; left; rfl
  | some lm =>
      rw [processHand_some_eq]
      exact handleGesture_follow_cases env lm now (classifyLabel lm) (midState env lm now s)

/-- Every public operation other than the manual follow fallback leaves
the following field null, unchanged, or equal to its own selection. -/
theorem runOp_follow_cases (env : Env) (s : GCState) (op : Op)
    (hop : ∀ p, op ≠ Op.followId p) :
    (runOp env s op).state.followingPlanet = none ∨
    (runOp env s op).state.followingPlanet = s.followingPlanet ∨
    (runOp env s op).state.followingPlanet = (runOp env s op).state.selectedPlanet := by
  cases op with
  | frame lmOpt now => exact processHand_follow_cases env now lmOpt s
  | handLost =>
      right; left
      simp only [runOp, onHandLost]
      split_ifs <;> rfl
  | tick => right; left; rfl
  | rotateBy dt dp => right; left; rfl
  | zoomBy d => right; left; rfl
  | selectId p => right; left; rfl
  | followId p => exact absurd rfl (hop p)
  | resetAll => left; rfl

theorem runTrace_followInv (env : Env) :
    ∀ (ops : List Op) (s : GCState) (sel : List PlanetId),
      followInv s sel → (∀ p, Op.followId p ∉ ops) →
      followInv (runTrace env s sel ops).1 (runTrace env s sel ops).2 := by
  intro ops
  induction ops with
  | nil => intro s sel h _; exact h
  | cons op ops ih =>
      intro s sel h hno
      have hop : ∀ p, op ≠ Op.followId p := by
        intro p hpe
        exact hno p (hpe ▸ List.mem_cons_self _ _)
      have hcase := runOp_follow_cases env s op hop
      have hno2 : ∀ p, Op.followId p ∉ ops := by
        intro p hp
        exact hno p (List.mem_cons_of_mem _ hp)
      simp only [runTrace]
      cases hs2 : (runOp env s op).state.selectedPlanet with
      | none =>
          simp only [hs2]
          apply ih _ _ _ hno2
          rcases hcase with hc | hc | hc
          · left; exact hc
          · rcases h with hnone | ⟨q, hq, heq⟩
            · left; rw [hc, hnone]
            · right; exact ⟨q, hq, by rw [hc, heq]⟩
          · left; rw [hc, hs2]
      | some q =>
          simp only [hs2]
          apply ih _ _ _ hno2
          rcases hcase with hc | hc | hc
          · left; exact hc
          · rcases h with hnone | ⟨q2, hq2, heq⟩
            · left; rw [hc, hnone]
            · right; exact ⟨q2, List.mem_cons_of_mem _ hq2, by rw [hc, heq]⟩
          · right; exact ⟨q, List.mem_cons_self _ _, by rw [hc, hs2]⟩

/-- Claim C4 counterexample: the manual follow fallback violates the
invariant as claimed — from the fresh controller, manualFollowPlanet mars
leaves following = mars although mars was never selected (the ghost list
of previously selected ids is empty). -/
theorem claim4_follow_counterexample :
    ¬ followInv (runTrace anyEnv initState [] [Op.followId "mars"]).1
        (runTrace anyEnv initState [] [Op.followId "mars"]).2 := by
  intro h
  rcases h with hnone | ⟨q, hq, heq⟩
  · simp [runTrace, runOp, manualFollowPlanet, initState] at hnone
  · simp [runTrace, runOp, manualFollowPlanet, initState] at hq

/-- Claim C4 (amended): under any sequence of the public operations other
than the manual follow fallback (processHand, onHandLost, update, manual
rotate, zoom, select and reset), the following field is always null or an
id the selection field previously held; manualFollowPlanet itself sets
following directly and is exempt. -/
theorem claim4_follow_selected_invariant (env : Env) (ops : List Op)
    (hno : ∀ p, Op.followId p ∉ ops) :
    followInv (runTrace env initState [] ops).1 (runTrace env initState [] ops).2 :=
  runTrace_followInv env ops initState [] (Or.inl rfl) hno

theorem claim4_follow_selected_invariant_witness :
    (∀ p, Op.followId p ∉ [Op.selectId "venus", Op.frame none 0, Op.resetAll]) ∧
    followInv
      (runTrace anyEnv initState [] [Op.selectId "venus", Op.frame none 0, Op.resetAll]).1
      (runTrace anyEnv initState [] [Op.selectId "venus", Op.frame none 0, Op.resetAll]).2 := by
  have hno : ∀ p, Op.followId p ∉ [Op.selectId "venus", Op.frame none 0, Op.resetAll] := by
    intro p
    simp
  exact ⟨hno, claim4_follow_selected_invariant anyEnv _ hno⟩

end SolarHand
